import Mathlib

/-!
Shallow embedding of the trip statistics engine of the hiking journal
repository: the shared math utilities (utils.js), the trip page
aggregation script (trip.js) and the homepage statistics script
(main.js).  JavaScript numbers are modelled as exact rationals where the
source only adds, subtracts, compares and floors, and as real numbers
where the source uses transcendental functions (the haversine formula).
Absent or null JSON fields are modelled with Option.  Fetching a day
file is modelled as an already-resolved outcome: either a parsed GeoJSON
value or a failure reason string.
-/

/-- A GeoJSON coordinate: longitude, latitude and an optional elevation
in meters (the third array element, which may be missing). -/
structure GeoPoint where
  lon : ℚ
  lat : ℚ
  ele : Option ℚ
deriving DecidableEq

/-- JavaScript Math.round on an exact rational: nearest integer, ties
rounded up, i.e. the floor of x + 1/2. -/
def mathRound (x : ℚ) : ℚ := (((x + 1/2).floor : ℤ) : ℚ)

/-- JavaScript Math.round on a real number. -/
noncomputable def mathRoundR (x : ℝ) : ℝ := ((⌊x + 1/2⌋ : ℤ) : ℝ)

/-- JavaScript Math.atan2 (y first, then x), modelled as the argument of
the complex number x + y i. -/
noncomputable def atan2 (y x : ℝ) : ℝ := Complex.arg ⟨x, y⟩

/-- haversineDistance (utils.js lines 14-28): great-circle distance in
miles between two coordinates, using only longitude and latitude. -/
noncomputable def haversineDistance (c1 c2 : GeoPoint) : ℝ :=
  let R : ℝ := 3958.8
  let toRad : ℝ → ℝ := fun deg => deg * Real.pi / 180
  let lat1 := toRad (c1.lat : ℝ)
  let lat2 := toRad (c2.lat : ℝ)
  let dLat := toRad ((c2.lat : ℝ) - (c1.lat : ℝ))
  let dLon := toRad ((c2.lon : ℝ) - (c1.lon : ℝ))
  let a := Real.sin (dLat / 2) ^ 2 +
    Real.cos lat1 * Real.cos lat2 * Real.sin (dLon / 2) ^ 2
  R * 2 * atan2 (Real.sqrt a) (Real.sqrt (1 - a))

/-- The accumulation loop of calcDistance (utils.js lines 37-40): sum of
haversineDistance over consecutive pairs. -/
noncomputable def distLoop : List GeoPoint → ℝ
  | [] => 0
  | p :: rest =>
    match rest with
    | [] => 0
    | q :: _ => haversineDistance p q + distLoop rest

/-- calcDistance (utils.js lines 35-42): total track distance in miles,
rounded to 1 decimal place; 0 for fewer than 2 points. -/
noncomputable def calcDistance (coords : List GeoPoint) : ℝ :=
  if coords.length < 2 then 0
  else mathRoundR (distLoop coords * 10) / 10

/-- The loop body of calcElevationGain (utils.js lines 54-59): the
contribution of one consecutive segment.  A segment counts only when
both endpoints carry a numeric elevation, and only a positive delta is
added. -/
def segGain (p q : GeoPoint) : ℚ :=
  match p.ele, q.ele with
  | some a, some b => if b - a > 0 then b - a else 0
  | _, _ => 0

/-- The accumulation loop of calcElevationGain (utils.js lines 52-60):
sum of segGain over consecutive pairs. -/
def gainLoop : List GeoPoint → ℚ
  | [] => 0
  | p :: rest =>
    match rest with
    | [] => 0
    | q :: _ => segGain p q + gainLoop rest

/-- calcElevationGain (utils.js lines 50-63): cumulative positive
elevation delta in meters, converted to feet with factor 3.28084 and
rounded to the nearest 10; 0 for fewer than 2 points. -/
def calcElevationGain (coords : List GeoPoint) : ℚ :=
  if coords.length < 2 then 0
  else mathRound (gainLoop coords * 3.28084 / 10) * 10

/-- The optional override properties carried by a GeoJSON feature
(trip.js lines 126-136): day, distance_miles, elevation_gain_ft.  A
missing or null JSON field is none. -/
structure DayProps where
  day : Option ℚ
  distance_miles : Option ℚ
  elevation_gain_ft : Option ℚ
deriving DecidableEq

/-- A GeoJSON geometry value as dispatched on by
extractCoordsFromGeometry: a LineString, a MultiLineString, or any
other geometry type. -/
inductive Geometry where
  | lineString (coordinates : List GeoPoint)
  | multiLineString (coordinates : List (List GeoPoint))
  | otherGeometry
deriving DecidableEq

/-- A GeoJSON feature: an optional geometry and optional properties. -/
structure Feature where
  geometry : Option Geometry
  properties : Option DayProps
deriving DecidableEq

/-- A parsed GeoJSON payload as dispatched on by extractCoords
(trip.js lines 147-162): a FeatureCollection, a single Feature, or a
direct geometry (an arbitrary non-Feature object is modelled as a
direct geometry of an unsupported type). -/
inductive GeoJSON where
  | featureCollection (features : List Feature)
  | feature (f : Feature)
  | geometry (g : Option Geometry)
deriving DecidableEq

/-- extractCoordsFromGeometry (trip.js lines 164-169): LineString
coordinates verbatim, MultiLineString coordinates flattened in order,
anything else (including a missing geometry) empty. -/
def extractCoordsFromGeometry : Option Geometry → List GeoPoint
  | none => []
  | some (Geometry.lineString cs) => cs
  | some (Geometry.multiLineString ps) => ps.flatten
  | some Geometry.otherGeometry => []

/-- The feature loop of extractCoords (trip.js lines 151-154): return
the coordinates of the first feature whose geometry yields a non-empty
array, skipping features with empty extraction. -/
def firstLineStringCoords : List Feature → List GeoPoint
  | [] => []
  | f :: rest =>
    let c := extractCoordsFromGeometry f.geometry
    if c.length ≠ 0 then c else firstLineStringCoords rest

/-- extractCoords (trip.js lines 147-162).  For a FeatureCollection the
source falls through to extractCoordsFromGeometry on the collection
itself when no feature matched, which yields the empty array, exactly
as firstLineStringCoords does on an exhausted list. -/
def extractCoords : GeoJSON → List GeoPoint
  | GeoJSON.featureCollection fs => firstLineStringCoords fs
  | GeoJSON.feature f => extractCoordsFromGeometry f.geometry
  | GeoJSON.geometry g => extractCoordsFromGeometry g

/-- getFirstFeatureProps (trip.js lines 171-178): properties of the
first feature of a FeatureCollection, properties of a single Feature,
null otherwise. -/
def getFirstFeatureProps : GeoJSON → Option DayProps
  | GeoJSON.featureCollection fs =>
    match fs with
    | [] => none
    | f :: _ => f.properties
  | GeoJSON.feature f => f.properties
  | GeoJSON.geometry _ => none

/-- The per-day statistics resolved from a successfully parsed GeoJSON
payload (trip.js lines 124-136): embedded override properties are used
verbatim when present and non-null, otherwise the value is computed
from the extracted coordinates. -/
structure DayStats where
  dayNumber : ℚ
  distance : ℝ
  elevation : ℚ

/-- The stats resolution block of loadDayGeoJSON (trip.js lines
124-136), the DayStatsResolver of the specification. -/
noncomputable def resolveDay (geojson : GeoJSON) (index : ℕ) : DayStats :=
  let coords := extractCoords geojson
  let props := getFirstFeatureProps geojson
  { dayNumber :=
      match props.bind DayProps.day with
      | some d => d
      | none => (index : ℚ) + 1
    distance :=
      match props.bind DayProps.distance_miles with
      | some d => (d : ℝ)
      | none => calcDistance coords
    elevation :=
      match props.bind DayProps.elevation_gain_ft with
      | some e => e
      | none => calcElevationGain coords }

/-- The result record built by loadDayGeoJSON (trip.js lines 104-114),
without the presentation-only filename, url and geojson fields. -/
structure DayResult where
  index : ℕ
  ok : Bool
  dayNumber : ℚ
  distance : ℝ
  elevation : ℚ
  error : Option String

/-- loadDayGeoJSON (trip.js lines 102-144) applied to an
already-resolved fetch outcome: a failed fetch keeps the defaults
(ok false, day number index + 1, zero stats) and records the failure
reason; a successful fetch resolves the stats. -/
noncomputable def loadDayGeoJSON (outcome : Except String GeoJSON)
    (index : ℕ) : DayResult :=
  match outcome with
  | Except.error msg =>
    { index := index, ok := false, dayNumber := (index : ℚ) + 1
      distance := 0, elevation := 0, error := some msg }
  | Except.ok geojson =>
    let s := resolveDay geojson index
    { index := index, ok := true, dayNumber := s.dayNumber
      distance := s.distance, elevation := s.elevation, error := none }

/-- The indexed map of loadAllDays (trip.js lines 91-96), with the
running positional index made explicit. -/
noncomputable def loadAllDaysFrom : ℕ → List (Except String GeoJSON) → List DayResult
  | _, [] => []
  | i, o :: rest => loadDayGeoJSON o i :: loadAllDaysFrom (i + 1) rest

/-- loadAllDays (trip.js lines 91-96): one DayResult per fetch outcome,
in order, indices starting at 0. -/
noncomputable def loadAllDays (outcomes : List (Except String GeoJSON)) : List DayResult :=
  loadAllDaysFrom 0 outcomes

/-- The trip-level totals displayed by initTripPage. -/
structure TripTotals where
  totalDistance : ℝ
  totalElevation : ℚ
  daysCount : ℕ

/-- The totals aggregation block of initTripPage (trip.js lines 67-78):
sums distance and elevation over the DayResults with ok set, re-rounds
the sums (distance to 1 decimal, elevation to the nearest 10) and
counts the ok days. -/
noncomputable def aggregate (dayResults : List DayResult) : TripTotals :=
  let validDays := dayResults.filter fun d => d.ok
  let totalDistance := (validDays.map DayResult.distance).sum
  let totalElevation := (validDays.map DayResult.elevation).sum
  { totalDistance := mathRoundR (totalDistance * 10) / 10
    totalElevation := mathRound (totalElevation / 10) * 10
    daysCount := validDays.length }

namespace Home

/-- extractCoordsFromGeometry of the homepage script (main.js). -/
def extractCoordsFromGeometry : Option Geometry → List GeoPoint
  | none => []
  | some (Geometry.lineString cs) => cs
  | some (Geometry.multiLineString ps) => ps.flatten
  | some Geometry.otherGeometry => []

/-- The feature loop of the homepage extractCoords (main.js). -/
def firstLineStringCoords : List Feature → List GeoPoint
  | [] => []
  | f :: rest =>
    let c := extractCoordsFromGeometry f.geometry
    if c.length ≠ 0 then c else firstLineStringCoords rest

/-- extractCoords of the homepage script (main.js). -/
def extractCoords : GeoJSON → List GeoPoint
  | GeoJSON.featureCollection fs => firstLineStringCoords fs
  | GeoJSON.feature f => extractCoordsFromGeometry f.geometry
  | GeoJSON.geometry g => extractCoordsFromGeometry g

/-- getFirstFeatureProps of the homepage script (main.js), written with
optional chaining in the source but with the same meaning. -/
def getFirstFeatureProps : GeoJSON → Option DayProps
  | GeoJSON.featureCollection fs =>
    match fs with
    | [] => none
    | f :: _ => f.properties
  | GeoJSON.feature f => f.properties
  | GeoJSON.geometry _ => none

/-- The stats record returned by the homepage fetchDayStats. -/
structure DayStats where
  ok : Bool
  distance : ℝ
  elevation : ℚ

/-- fetchDayStats (main.js): resolves the per-day stats of one fetched
GeoJSON payload with the override-else-computed precedence; any failure
yields ok false with zero stats. -/
noncomputable def fetchDayStats (outcome : Except String GeoJSON) : DayStats :=
  match outcome with
  | Except.error _ => { ok := false, distance := 0, elevation := 0 }
  | Except.ok geojson =>
    let coords := extractCoords geojson
    let props := getFirstFeatureProps geojson
    { ok := true
      distance :=
        match props.bind DayProps.distance_miles with
        | some d => (d : ℝ)
        | none => calcDistance coords
      elevation :=
        match props.bind DayProps.elevation_gain_ft with
        | some e => e
        | none => calcElevationGain coords }

end Home

/-- Decision of the ASCII digit range, as used when modelling the Date
parser of calcElapsedTime. -/
def isDigitChar (c : Char) : Bool := 48 ≤ c.toNat && c.toNat ≤ 57

/-- Numeric value of a digit string. -/
def digitsToNat (l : List Char) : ℕ :=
  l.foldl (fun acc c => acc * 10 + (c.toNat - 48)) 0

/-- Split of a character list at every occurrence of a separator. -/
def splitOnChar (sep : Char) : List Char → List (List Char)
  | [] => [[]]
  | c :: rest =>
    let r := splitOnChar sep rest
    if c = sep then [] :: r
    else match r with
      | [] => [[c]]
      | g :: gs => (c :: g) :: gs

/-- Gregorian leap year test. -/
def isLeapYear (y : ℕ) : Bool := y % 4 = 0 && (y % 100 ≠ 0 || y % 400 = 0)

/-- Number of days of a month in the Gregorian calendar. -/
def daysInMonth (y m : ℕ) : ℕ :=
  if m = 2 then (if isLeapYear y then 29 else 28)
  else if m = 4 || m = 6 || m = 9 || m = 11 then 30
  else 31

/-- Days from the Unix epoch 1970-01-01 to the civil date y-m-d in the
proleptic Gregorian calendar (the civil-from-days algorithm used by
every standard date implementation). -/
def daysFromCivil (y m d : ℤ) : ℤ :=
  let yy := if m ≤ 2 then y - 1 else y
  let era := Int.fdiv yy 400
  let yoe := yy - era * 400
  let mp := if m ≤ 2 then m + 9 else m - 3
  let doy := Int.fdiv (153 * mp + 2) 5 + d - 1
  let doe := yoe * 365 + Int.fdiv yoe 4 - Int.fdiv yoe 100 + doy
  era * 146097 + doe - 719468

/-- Test that every character of a list is an ASCII digit. -/
def allDigits (l : List Char) : Bool := l.all isDigitChar

/-- Parse of a calendar date string in the ISO YYYY-MM-DD shape accepted
by the JavaScript Date constructor used in calcElapsedTime, yielding the
day number since the Unix epoch; none models an Invalid Date. -/
def parseDate (s : String) : Option ℤ :=
  match splitOnChar '-' s.toList with
  | [ys, ms, ds] =>
    if ys.length = 4 && ms.length = 2 && ds.length = 2
        && allDigits ys && allDigits ms && allDigits ds then
      let y := digitsToNat ys
      let m := digitsToNat ms
      let d := digitsToNat ds
      if 1 ≤ m && m ≤ 12 && 1 ≤ d && d ≤ daysInMonth y m then
        some (daysFromCivil y m d)
      else none
    else none
  | _ => none

/-- Parse of a time-of-day string in the HH:MM shape, yielding
milliseconds since midnight; none models an Invalid Date. -/
def parseTime (s : String) : Option ℤ :=
  match splitOnChar ':' s.toList with
  | [hs, ms] =>
    if hs.length = 2 && ms.length = 2 && allDigits hs && allDigits ms then
      let h := digitsToNat hs
      let mi := digitsToNat ms
      if h ≤ 23 && mi ≤ 59 then some (h * 3600000 + mi * 60000) else none
    else none
  | _ => none

/-- The Date construction of calcElapsedTime (utils.js lines 85-86):
new Date of the template \x22date T time\x22 with an empty (falsy) time
replaced by 00:00.  The result is the instant in milliseconds, none
modelling an Invalid Date (whose numeric value is NaN). -/
def parseDateTime (date time : String) : Option ℤ :=
  let t := if time = "" then "00:00" else time
  match parseDate date, parseTime t with
  | some days, some ms => some (days * 86400000 + ms)
  | _, _ => none

/-- calcElapsedTime (utils.js lines 83-104).  When either instant is an
Invalid Date the subtraction yields NaN in JavaScript; the comparison
NaN less-or-equal 0 is false, Math.floor of NaN is NaN, every if (NaN)
is falsy, so no parts are pushed and the function returns the
less-than-one-minute sentinel.  The none branch below reproduces that
flow; the try/catch of the source never fires on string inputs because
the Date constructor does not throw. -/
def calcElapsedTime (startDate startTime endDate endTime : String) : String :=
  match parseDateTime startDate startTime, parseDateTime endDate endTime with
  | some s, some e =>
    let diffMs := e - s
    if diffMs ≤ 0 then "—"
    else
      let days := Int.fdiv diffMs 86400000
      let rem1 := diffMs - days * 86400000
      let hours := Int.fdiv rem1 3600000
      let rem2 := rem1 - hours * 3600000
      let minutes := Int.fdiv rem2 60000
      let parts := (if days ≠ 0 then [toString days ++ "d"] else [])
                ++ (if hours ≠ 0 then [toString hours ++ "h"] else [])
                ++ (if minutes ≠ 0 then [toString minutes ++ "m"] else [])
      if parts.isEmpty then "< 1m" else String.intercalate " " parts
  | _, _ => "< 1m"

/-- The duration breakdown as the specification words it: whole days of
the difference, whole hours of the remainder, whole minutes of the
remainder after that, non-zero components space-joined with their unit
letters, and the less-than-one-minute sentinel when all are zero. -/
def elapsedBreakdown (diff : ℤ) : String :=
  let days := diff / 86400000
  let hours := (diff % 86400000) / 3600000
  let minutes := ((diff % 86400000) % 3600000) / 60000
  let parts := (if days ≠ 0 then [toString days ++ "d"] else [])
            ++ (if hours ≠ 0 then [toString hours ++ "h"] else [])
            ++ (if minutes ≠ 0 then [toString minutes ++ "m"] else [])
  if parts.isEmpty then "< 1m" else String.intercalate " " parts

/-- The segment gain as the specification words it: only a positive
elevation delta counts, and only when both endpoints carry an
elevation. -/
def specSegGain (p q : GeoPoint) : ℚ :=
  match p.ele, q.ele with
  | some a, some b => max (b - a) 0
  | _, _ => 0

/-- trackElevationGain as the specification words it: sum of the
positive deltas over consecutive pairs, converted to feet and rounded
to the nearest 10. -/
def specElevationGain (coords : List GeoPoint) : ℚ :=
  mathRound ((((coords.zip coords.tail).map fun s => specSegGain s.1 s.2).sum)
    * 3.28084 / 10) * 10

/-- trackDistance as the specification words it: sum of the pairwise
distances over consecutive pairs, rounded to 1 decimal place. -/
noncomputable def specTrackDistance (coords : List GeoPoint) : ℝ :=
  mathRoundR ((((coords.zip coords.tail).map fun s => haversineDistance s.1 s.2).sum)
    * 10) / 10

/-- distanceBetween as the specification words it: the haversine
great-circle distance with Earth radius 3958.8 miles, depending only on
longitude and latitude, degrees converted to radians. -/
noncomputable def haversineFormula (lon1 lat1 lon2 lat2 : ℚ) : ℝ :=
  let lat1r := (lat1 : ℝ) * Real.pi / 180
  let lat2r := (lat2 : ℝ) * Real.pi / 180
  let dLat := ((lat2 : ℝ) - (lat1 : ℝ)) * Real.pi / 180
  let dLon := ((lon2 : ℝ) - (lon1 : ℝ)) * Real.pi / 180
  let a := Real.sin (dLat / 2) ^ 2 +
    Real.cos lat1r * Real.cos lat2r * Real.sin (dLon / 2) ^ 2
  3958.8 * 2 * atan2 (Real.sqrt a) (Real.sqrt (1 - a))

/-- First track of a list that is non-empty, or the empty track: the
first-match-wins rule of the specification for feature collections. -/
def firstNonEmptyTrack (tracks : List (List GeoPoint)) : List GeoPoint :=
  (tracks.find? fun c => !c.isEmpty).getD []

/-- The three-point sample track of the specification round-trip
scenario. -/
def demoTrack : List GeoPoint :=
  [⟨-118.2923, 36.5785, some 2100⟩,
   ⟨-118.2901, 36.5712, some 2210⟩,
   ⟨-118.2876, 36.5648, some 2380⟩]

/-- A two-point track whose raw elevation gain is 1.2 meters, used to
exhibit double-rounding drift. -/
def driftTrack : List GeoPoint := [⟨0, 0, some 0⟩, ⟨0, 0, some 1.2⟩]

/-! Helper lemmas about rounding and the elevation loop. -/

theorem ratFloor_eq_intFloor (q : ℚ) : q.floor = ⌊q⌋ := by
  rw [Rat.floor_def', Rat.floor_def]

theorem mathRound_eq_floor (x : ℚ) : mathRound x = ((⌊x + 1/2⌋ : ℤ) : ℚ) := by
  rw [mathRound, ratFloor_eq_intFloor]

theorem mathRound_mono (x y : ℚ) (h : x ≤ y) : mathRound x ≤ mathRound y := by
  rw [mathRound_eq_floor, mathRound_eq_floor]
  exact_mod_cast Int.floor_mono (by linarith)

theorem mathRound_nonneg (x : ℚ) (h : 0 ≤ x) : 0 ≤ mathRound x := by
  rw [mathRound_eq_floor]
  exact_mod_cast Int.floor_nonneg.mpr (by linarith)

theorem gainLoop_nil : gainLoop [] = 0 := rfl

theorem gainLoop_single (p : GeoPoint) : gainLoop [p] = 0 := rfl

theorem gainLoop_cons_cons (p q : GeoPoint) (rest : List GeoPoint) :
    gainLoop (p :: q :: rest) = segGain p q + gainLoop (q :: rest) := rfl

theorem segGain_nonneg (p q : GeoPoint) : 0 ≤ segGain p q := by
  unfold segGain
  rcases p.ele with _ | a <;> rcases q.ele with _ | b <;> simp
  split <;> linarith

theorem segGain_eq_spec (p q : GeoPoint) : segGain p q = specSegGain p q := by
  unfold segGain specSegGain
  rcases p.ele with _ | a <;> rcases q.ele with _ | b <;> simp
  split
  · exact (max_eq_left (by linarith)).symm
  · exact (max_eq_right (by linarith)).symm

theorem gainLoop_eq_pairwise (coords : List GeoPoint) :
    gainLoop coords = ((coords.zip coords.tail).map fun s => segGain s.1 s.2).sum := by
  induction coords with
  | nil => simp [gainLoop_nil]
  | cons p rest ih =>
    cases rest with
    | nil => simp [gainLoop_single]
    | cons q rest2 => simp [gainLoop_cons_cons, ih]

theorem gainLoop_nonneg (coords : List GeoPoint) : 0 ≤ gainLoop coords := by
  induction coords with
  | nil => simp [gainLoop_nil]
  | cons p rest ih =>
    cases rest with
    | nil => simp [gainLoop_single]
    | cons q rest2 =>
      rw [gainLoop_cons_cons]
      have := segGain_nonneg p q
      linarith

theorem gainLoop_le_append (t : List GeoPoint) (p : GeoPoint) :
    gainLoop t ≤ gainLoop (t ++ [p]) := by
  induction t with
  | nil => simp [gainLoop_nil, gainLoop_single]
  | cons a rest ih =>
    cases rest with
    | nil =>
      simpa [gainLoop_single, gainLoop_cons_cons, gainLoop_nil] using segGain_nonneg a p
    | cons b rest2 =>
      simp only [List.cons_append, gainLoop_cons_cons]
      have h2 : gainLoop (b :: rest2) ≤ gainLoop (b :: rest2 ++ [p]) := by
        simpa using ih
      simp only [List.cons_append] at h2
      linarith

theorem calcElevationGain_nonneg (coords : List GeoPoint) :
    0 ≤ calcElevationGain coords := by
  unfold calcElevationGain
  split
  · exact le_refl 0
  · have h1 := gainLoop_nonneg coords
    have h2 : 0 ≤ gainLoop coords * 3.28084 / 10 := by linarith
    have := mathRound_nonneg _ h2
    linarith

/-- C3: trackElevationGain sums only positive elevation deltas between
consecutive points, counting a segment only when both endpoints carry a
numeric elevation, converts the summed meters to feet with factor
3.28084, rounds to the nearest 10 feet, and returns 0 for fewer than 2
points; the sample track yields exactly 920 ft. -/
theorem calcElevationGain_spec :
    (∀ coords : List GeoPoint, coords.length < 2 → calcElevationGain coords = 0) ∧
    (∀ coords : List GeoPoint, calcElevationGain coords = specElevationGain coords) ∧
    calcElevationGain demoTrack = 920 := by
  refine ⟨fun coords h => by unfold calcElevationGain; simp [h], fun coords => ?_, ?_⟩
  · unfold calcElevationGain specElevationGain
    have hseg : (fun s : GeoPoint × GeoPoint => segGain s.1 s.2) =
        fun s : GeoPoint × GeoPoint => specSegGain s.1 s.2 :=
      funext fun s => segGain_eq_spec s.1 s.2
    split
    case isTrue h =>
      rcases coords with _ | ⟨x, _ | ⟨y, rest⟩⟩
      · simp [mathRound_eq_floor]
        norm_num
      · simp [mathRound_eq_floor]
        norm_num
      · simp only [List.length_cons] at h
        omega
    case isFalse h =>
      rw [gainLoop_eq_pairwise, hseg]
  · norm_num [calcElevationGain, demoTrack, gainLoop_cons_cons, gainLoop_single,
      segGain, mathRound_eq_floor]

/-- Witness for C3 at the empty track. -/
theorem calcElevationGain_spec_witness : calcElevationGain [] = 0 :=
  calcElevationGain_spec.1 [] (by decide)

/-- C9: appending a point never decreases trackElevationGain, including
after the rounding to the nearest 10 feet. -/
theorem calcElevationGain_monotone_append :
    ∀ (t : List GeoPoint) (p : GeoPoint),
      calcElevationGain t ≤ calcElevationGain (t ++ [p]) := by
  intro t p
  by_cases h : t.length < 2
  · have h0 : calcElevationGain t = 0 := by unfold calcElevationGain; simp [h]
    rw [h0]
    exact calcElevationGain_nonneg _
  · have h2 : ¬ (t ++ [p]).length < 2 := by
      simp only [List.length_append, List.length_cons, List.length_nil]
      omega
    unfold calcElevationGain
    rw [if_neg h, if_neg h2]
    have hg := gainLoop_le_append t p
    have hm := mathRound_mono (gainLoop t * 3.28084 / 10)
      (gainLoop (t ++ [p]) * 3.28084 / 10) (by linarith)
    linarith

/-- C8: the trip totals re-round the sum of the per-day values (which
are themselves already rounded when computed: every computed elevation
is a multiple of 10 and every computed distance a multiple of 0.1), and
this double rounding differs from a single rounding of the raw sums on
the drift track. -/
theorem aggregate_double_rounding :
    (∀ dayResults : List DayResult,
        (aggregate dayResults).totalDistance =
          mathRoundR ((((dayResults.filter fun d => d.ok).map DayResult.distance).sum) * 10) / 10 ∧
        (aggregate dayResults).totalElevation =
          mathRound ((((dayResults.filter fun d => d.ok).map DayResult.elevation).sum) / 10) * 10 ∧
        (aggregate dayResults).daysCount = (dayResults.filter fun d => d.ok).length) ∧
    (∀ coords : List GeoPoint, ∃ k : ℤ, calcElevationGain coords = 10 * k) ∧
    (∀ coords : List GeoPoint, ∃ k : ℤ, calcDistance coords = (k : ℝ) / 10) ∧
    mathRound ((calcElevationGain driftTrack + calcElevationGain driftTrack) / 10) * 10 = 0 ∧
    mathRound ((gainLoop driftTrack + gainLoop driftTrack) * 3.28084 / 10) * 10 = 10 := by
  refine ⟨fun dayResults => ⟨rfl, rfl, rfl⟩, fun coords => ?_, fun coords => ?_, ?_, ?_⟩
  · unfold calcElevationGain
    split
    · exact ⟨0, by norm_num⟩
    · refine ⟨⌊gainLoop coords * 3.28084 / 10 + 1/2⌋, ?_⟩
      rw [mathRound_eq_floor]
      ring
  · unfold calcDistance
    split
    · exact ⟨0, by norm_num⟩
    · exact ⟨⌊distLoop coords * 10 + 1/2⌋, rfl⟩
  · have h0 : calcElevationGain driftTrack = 0 := by
      norm_num [calcElevationGain, driftTrack, gainLoop_cons_cons, gainLoop_single,
        segGain, mathRound_eq_floor]
    rw [h0]
    norm_num [mathRound_eq_floor]
  · norm_num [driftTrack, gainLoop_cons_cons, gainLoop_single, segGain, mathRound_eq_floor]

/-! Helper lemmas about the per-day loading list. -/

theorem loadAllDaysFrom_length (k : ℕ) (outcomes : List (Except String GeoJSON)) :
    (loadAllDaysFrom k outcomes).length = outcomes.length := by
  induction outcomes generalizing k with
  | nil => rfl
  | cons o rest ih => simp [loadAllDaysFrom, ih]

theorem loadAllDaysFrom_getElem (k i : ℕ) (outcomes : List (Except String GeoJSON)) :
    (loadAllDaysFrom k outcomes)[i]? =
      outcomes[i]?.map fun o => loadDayGeoJSON o (k + i) := by
  induction outcomes generalizing k i with
  | nil => simp [loadAllDaysFrom]
  | cons o rest ih =>
    cases i with
    | zero => simp [loadAllDaysFrom]
    | succ n =>
      simp only [loadAllDaysFrom, List.getElem?_cons_succ]
      rw [ih (k + 1) n]
      have harith : k + 1 + n = k + (n + 1) := by omega
      rw [harith]

/-- C1: loadAllDays produces one DayResult per fetch outcome in order; a
failed outcome at position i yields ok false, day number i + 1, zero
distance and elevation and the recorded failure reason, while a
successful outcome yields the resolved stats; the totals aggregation
depends only on the successful DayResults, so one bad day never aborts
the aggregation of the others. -/
theorem aggregate_partial_failure :
    (∀ outcomes : List (Except String GeoJSON),
        (loadAllDays outcomes).length = outcomes.length) ∧
    (∀ (outcomes : List (Except String GeoJSON)) (i : ℕ) (msg : String),
        outcomes[i]? = some (Except.error msg) →
        (loadAllDays outcomes)[i]? = some
          { index := i, ok := false, dayNumber := (i : ℚ) + 1,
            distance := 0, elevation := 0, error := some msg }) ∧
    (∀ (outcomes : List (Except String GeoJSON)) (i : ℕ) (g : GeoJSON),
        outcomes[i]? = some (Except.ok g) →
        (loadAllDays outcomes)[i]? = some
          { index := i, ok := true, dayNumber := (resolveDay g i).dayNumber,
            distance := (resolveDay g i).distance,
            elevation := (resolveDay g i).elevation, error := none }) ∧
    (∀ dayResults : List DayResult,
        aggregate dayResults = aggregate (dayResults.filter fun d => d.ok)) := by
  refine ⟨?_, ?_, ?_, ?_⟩
  · intro outcomes
    exact loadAllDaysFrom_length 0 outcomes
  · intro outcomes i msg h
    rw [loadAllDays, loadAllDaysFrom_getElem, h]
    simp [loadDayGeoJSON]
  · intro outcomes i g h
    rw [loadAllDays, loadAllDaysFrom_getElem, h]
    simp [loadDayGeoJSON]
  · intro dayResults
    unfold aggregate
    simp [List.filter_filter]

/-- Witness for C1 at a one-element outcome list whose only fetch
failed. -/
theorem aggregate_partial_failure_witness :
    (loadAllDays [Except.error "HTTP 404"])[0]? = some
      { index := 0, ok := false, dayNumber := ((0 : ℕ) : ℚ) + 1,
        distance := 0, elevation := 0, error := some "HTTP 404" } :=
  aggregate_partial_failure.2.1 [Except.error "HTTP 404"] 0 "HTTP 404" rfl

/-- C2: resolveDay uses the day, distance_miles and elevation_gain_ft
override properties verbatim when present and non-null, and falls back
to the positional index plus one respectively the computed track stats
otherwise; in particular a record with distance_miles 14.2 resolves to
distance exactly 14.2. -/
theorem resolveDay_override_precedence :
    ∀ (g : GeoJSON) (i : ℕ),
      ((getFirstFeatureProps g).bind DayProps.day = none →
          (resolveDay g i).dayNumber = (i : ℚ) + 1) ∧
      (∀ q : ℚ, (getFirstFeatureProps g).bind DayProps.day = some q →
          (resolveDay g i).dayNumber = q) ∧
      ((getFirstFeatureProps g).bind DayProps.distance_miles = none →
          (resolveDay g i).distance = calcDistance (extractCoords g)) ∧
      (∀ q : ℚ, (getFirstFeatureProps g).bind DayProps.distance_miles = some q →
          (resolveDay g i).distance = (q : ℝ)) ∧
      ((getFirstFeatureProps g).bind DayProps.elevation_gain_ft = none →
          (resolveDay g i).elevation = calcElevationGain (extractCoords g)) ∧
      (∀ q : ℚ, (getFirstFeatureProps g).bind DayProps.elevation_gain_ft = some q →
          (resolveDay g i).elevation = q) ∧
      ((getFirstFeatureProps g).bind DayProps.distance_miles = some (14.2 : ℚ) →
          (resolveDay g i).distance = ((14.2 : ℚ) : ℝ)) := by
  intro g i
  refine ⟨fun h => ?_, fun q h => ?_, fun h => ?_, fun q h => ?_,
    fun h => ?_, fun q h => ?_, fun h => ?_⟩ <;>
  simp [resolveDay, h]

/-- Witness for C2 at a single-feature record carrying the 14.2 mile
override. -/
theorem resolveDay_override_precedence_witness :
    (resolveDay (GeoJSON.feature
      { geometry := some (Geometry.lineString demoTrack),
        properties := some
          { day := none, distance_miles := some 14.2, elevation_gain_ft := none } })
      0).distance = ((14.2 : ℚ) : ℝ) :=
  (resolveDay_override_precedence (GeoJSON.feature
      { geometry := some (Geometry.lineString demoTrack),
        properties := some
          { day := none, distance_miles := some 14.2, elevation_gain_ft := none } })
      0).2.2.2.2.2.2 rfl

/-! Helper lemma for the feature scan. -/

theorem firstLineStringCoords_eq (fs : List Feature) :
    firstLineStringCoords fs =
      firstNonEmptyTrack (fs.map fun f => extractCoordsFromGeometry f.geometry) := by
  induction fs with
  | nil => rfl
  | cons f rest ih =>
    have hcons : firstLineStringCoords (f :: rest) =
        (if (extractCoordsFromGeometry f.geometry).length ≠ 0
         then extractCoordsFromGeometry f.geometry
         else firstLineStringCoords rest) := rfl
    rw [hcons]
    cases hc : extractCoordsFromGeometry f.geometry with
    | nil => simp [firstNonEmptyTrack, List.find?_cons, ih, hc]
    | cons x xs => simp [firstNonEmptyTrack, List.find?_cons, hc]

/-- C7: extractCoords dispatches on the record kind: a feature
collection yields the first non-empty feature track (first-match wins,
empty extractions are skipped, none found yields the empty track), a
single feature or bare geometry yields its geometry extraction; a
LineString yields its path verbatim, a MultiLineString the ordered
concatenation of its paths, and any other or missing geometry the empty
sequence. -/
theorem extractCoords_spec :
    (∀ fs : List Feature,
        extractCoords (GeoJSON.featureCollection fs) =
          firstNonEmptyTrack (fs.map fun f => extractCoordsFromGeometry f.geometry)) ∧
    (∀ f : Feature,
        extractCoords (GeoJSON.feature f) = extractCoordsFromGeometry f.geometry) ∧
    (∀ g : Option Geometry,
        extractCoords (GeoJSON.geometry g) = extractCoordsFromGeometry g) ∧
    (∀ cs : List GeoPoint,
        extractCoordsFromGeometry (some (Geometry.lineString cs)) = cs) ∧
    (∀ ps : List (List GeoPoint),
        extractCoordsFromGeometry (some (Geometry.multiLineString ps)) = ps.flatten) ∧
    extractCoordsFromGeometry (some Geometry.otherGeometry) = [] ∧
    extractCoordsFromGeometry none = ([] : List GeoPoint) :=
  ⟨fun fs => firstLineStringCoords_eq fs, fun _ => rfl, fun _ => rfl,
   fun _ => rfl, fun _ => rfl, rfl, rfl⟩

/-! Helper lemmas comparing the homepage script to the trip script. -/

theorem home_extractCoordsFromGeometry_eq (g : Option Geometry) :
    Home.extractCoordsFromGeometry g = extractCoordsFromGeometry g := by
  cases g with
  | none => rfl
  | some geo => cases geo <;> rfl

theorem home_firstLineStringCoords_eq (fs : List Feature) :
    Home.firstLineStringCoords fs = firstLineStringCoords fs := by
  induction fs with
  | nil => rfl
  | cons f rest ih =>
    show (if (Home.extractCoordsFromGeometry f.geometry).length ≠ 0
          then Home.extractCoordsFromGeometry f.geometry
          else Home.firstLineStringCoords rest) =
        (if (extractCoordsFromGeometry f.geometry).length ≠ 0
          then extractCoordsFromGeometry f.geometry
          else firstLineStringCoords rest)
    rw [home_extractCoordsFromGeometry_eq, ih]

theorem home_extractCoords_eq (g : GeoJSON) :
    Home.extractCoords g = extractCoords g := by
  cases g with
  | featureCollection fs => exact home_firstLineStringCoords_eq fs
  | feature f => exact home_extractCoordsFromGeometry_eq f.geometry
  | geometry gg => exact home_extractCoordsFromGeometry_eq gg

theorem home_getFirstFeatureProps_eq (g : GeoJSON) :
    Home.getFirstFeatureProps g = getFirstFeatureProps g := by
  cases g with
  | featureCollection fs => cases fs <;> rfl
  | feature f => rfl
  | geometry gg => rfl

/-- C10: the homepage fetchDayStats and the trip page resolveDay embed
the same track extraction and the same override-else-computed
precedence, so they produce identical distance and elevation values on
every successfully parsed record. -/
theorem homepage_trip_stats_agree :
    (∀ g : GeoJSON, Home.extractCoords g = extractCoords g) ∧
    (∀ g : GeoJSON, Home.getFirstFeatureProps g = getFirstFeatureProps g) ∧
    (∀ (g : GeoJSON) (i : ℕ),
        (Home.fetchDayStats (Except.ok g)).distance = (resolveDay g i).distance ∧
        (Home.fetchDayStats (Except.ok g)).elevation = (resolveDay g i).elevation) := by
  refine ⟨home_extractCoords_eq, home_getFirstFeatureProps_eq, fun g i => ⟨?_, ?_⟩⟩ <;>
  simp [Home.fetchDayStats, resolveDay, home_extractCoords_eq, home_getFirstFeatureProps_eq]

/-! Helper lemmas about the distance loop. -/

theorem distLoop_nil : distLoop [] = 0 := rfl

theorem distLoop_single (p : GeoPoint) : distLoop [p] = 0 := rfl

theorem distLoop_cons_cons (p q : GeoPoint) (rest : List GeoPoint) :
    distLoop (p :: q :: rest) = haversineDistance p q + distLoop (q :: rest) := rfl

theorem distLoop_eq_pairwise (coords : List GeoPoint) :
    distLoop coords =
      ((coords.zip coords.tail).map fun s => haversineDistance s.1 s.2).sum := by
  induction coords with
  | nil => simp [distLoop_nil]
  | cons p rest ih =>
    cases rest with
    | nil => simp [distLoop_single]
    | cons q rest2 => simp [distLoop_cons_cons, ih]

/-- C4: trackDistance sums the pairwise distance over consecutive pairs
and rounds the total to 1 decimal place (round-half-up), returns 0 for
fewer than 2 points, and the pairwise distance is the haversine
great-circle distance with Earth radius 3958.8 miles using only the
longitude and latitude of each point, degrees converted to radians. -/
theorem calcDistance_spec :
    (∀ coords : List GeoPoint, coords.length < 2 → calcDistance coords = 0) ∧
    (∀ coords : List GeoPoint, calcDistance coords = specTrackDistance coords) ∧
    (∀ c1 c2 : GeoPoint,
        haversineDistance c1 c2 = haversineFormula c1.lon c1.lat c2.lon c2.lat) := by
  refine ⟨fun coords h => by unfold calcDistance; simp [h], fun coords => ?_,
    fun c1 c2 => rfl⟩
  unfold calcDistance specTrackDistance
  split
  case isTrue h =>
    rcases coords with _ | ⟨x, _ | ⟨y, rest⟩⟩
    · simp [mathRoundR]
      norm_num
    · simp [mathRoundR]
      norm_num
    · simp only [List.length_cons] at h
      omega
  case isFalse h => rw [distLoop_eq_pairwise]

/-- Witness for C4 at the empty track. -/
theorem calcDistance_spec_witness : calcDistance [] = 0 :=
  calcDistance_spec.1 [] (by decide)

/-! Helper lemma exposing the branch of calcElapsedTime taken when both
instants parse. -/

theorem calcElapsedTime_parsed (sd st ed et : String) (s e : ℤ)
    (h1 : parseDateTime sd st = some s) (h2 : parseDateTime ed et = some e) :
    calcElapsedTime sd st ed et =
      (if e - s ≤ 0 then "—"
       else
         let days := Int.fdiv (e - s) 86400000
         let rem1 := e - s - days * 86400000
         let hours := Int.fdiv rem1 3600000
         let rem2 := rem1 - hours * 3600000
         let minutes := Int.fdiv rem2 60000
         let parts := (if days ≠ 0 then [toString days ++ "d"] else [])
                   ++ (if hours ≠ 0 then [toString hours ++ "h"] else [])
                   ++ (if minutes ≠ 0 then [toString minutes ++ "m"] else [])
         if parts.isEmpty then "< 1m" else String.intercalate " " parts) := by
  unfold calcElapsedTime
  rw [h1, h2]

/-- C5: for instants that both parse (an empty time-of-day defaulting to
midnight), a non-positive difference yields the unknown sentinel, and a
positive difference is decomposed by successive floor division into
whole days, hours and minutes, formatted as the space-joined non-zero
components with their unit letters, with a less-than-one-minute
sentinel when all are zero; the two concrete examples of the
specification evaluate as stated. -/
theorem calcElapsedTime_spec :
    (∀ (sd st ed et : String) (s e : ℤ),
        parseDateTime sd st = some s → parseDateTime ed et = some e → e ≤ s →
        calcElapsedTime sd st ed et = "—") ∧
    (∀ (sd st ed et : String) (s e : ℤ),
        parseDateTime sd st = some s → parseDateTime ed et = some e → s < e →
        calcElapsedTime sd st ed et = elapsedBreakdown (e - s)) ∧
    (∀ sd ed et : String,
        calcElapsedTime sd "" ed et = calcElapsedTime sd "00:00" ed et) ∧
    (∀ sd st ed : String,
        calcElapsedTime sd st ed "" = calcElapsedTime sd st ed "00:00") ∧
    calcElapsedTime "2024-06-01" "07:00" "2024-06-15" "14:30" = "14d 7h 30m" ∧
    calcElapsedTime "2024-06-01" "10:00" "2024-06-01" "09:00" = "—" := by
  refine ⟨?_, ?_, fun sd ed et => rfl, fun sd st ed => rfl, by decide, by decide⟩
  · intro sd st ed et s e h1 h2 hle
    rw [calcElapsedTime_parsed sd st ed et s e h1 h2,
      if_pos (by linarith : e - s ≤ 0)]
  · intro sd st ed et s e h1 h2 hlt
    rw [calcElapsedTime_parsed sd st ed et s e h1 h2,
      if_neg (by linarith : ¬ (e - s ≤ 0))]
    have f1 : ∀ a : ℤ, Int.fdiv a 86400000 = a / 86400000 := fun a =>
      Int.fdiv_eq_ediv a (by norm_num)
    have f2 : ∀ a : ℤ, Int.fdiv a 3600000 = a / 3600000 := fun a =>
      Int.fdiv_eq_ediv a (by norm_num)
    have f3 : ∀ a : ℤ, Int.fdiv a 60000 = a / 60000 := fun a =>
      Int.fdiv_eq_ediv a (by norm_num)
    have m1 : ∀ a : ℤ, a - a / 86400000 * 86400000 = a % 86400000 := fun a => by
      rw [Int.emod_def]; ring
    have m2 : ∀ a : ℤ, a - a / 3600000 * 3600000 = a % 3600000 := fun a => by
      rw [Int.emod_def]; ring
    simp only [elapsedBreakdown, f1, f2, f3, m1, m2]

/-- Witness for C5 at the fourteen-day example of the specification. -/
theorem calcElapsedTime_spec_witness :
    calcElapsedTime "2024-06-01" "07:00" "2024-06-15" "14:30" =
      elapsedBreakdown (1718461800000 - 1717225200000) :=
  calcElapsedTime_spec.2.1 "2024-06-01" "07:00" "2024-06-15" "14:30"
    1717225200000 1718461800000 (by decide) (by decide) (by decide)

/-- C6: evaluation of calcElapsedTime on malformed dates.  A malformed
date makes the Date constructor produce an Invalid Date rather than
throw, the NaN difference fails the non-positive test and every
component test, so the function returns the less-than-one-minute
sentinel, not the unknown sentinel it returns for a non-positive
duration. -/
theorem calcElapsedTime_malformed_eval :
    calcElapsedTime "2024-13-01" "07:00" "2024-06-15" "14:30" = "< 1m" ∧
    calcElapsedTime "not-a-date" "" "2024-06-15" "14:30" = "< 1m" ∧
    calcElapsedTime "2024-06-01" "10:00" "2024-06-01" "09:00" = "—" :=
  ⟨by decide, by decide, by decide⟩
